import Mathlib

/-!
Shallow embedding of the cart / selection / push-notification core of the
wao-ui client, together with proofs of its specified properties.

Source files embedded:
- src/wao-ui/app/buyer/marketplace/page.tsx (cart store, selection state)
- src/wao-ui/components/websocket-provider.tsx (push channel, notifications)
-/

namespace WaoUI

/-! ### JavaScript primitives used by the page

The page manipulates JS arrays via findIndex / filter-with-index, and JS
objects via keyed access and spread-update.  These helpers embed those
primitives faithfully. -/

/-- Embeds Array.prototype.findIndex: index of the first element satisfying
the predicate, or none (JS returns -1). -/
def jsFindIndex (p : α → Bool) : List α → Option Nat
  | [] => none
  | x :: xs => if p x then some 0 else (jsFindIndex p xs).map (· + 1)

/-- Replace the element at an index by applying a function (embeds the JS
in-place update of an array copy at a known index). -/
def modifyIdx : List α → Nat → (α → α) → List α
  | [], _, _ => []
  | x :: xs, 0, f => f x :: xs
  | x :: xs, n + 1, f => x :: modifyIdx xs n f

/-- Embeds Array.prototype.filter with the index callback, keeping entries
whose index differs from the given one; `n` is the index of the head. -/
def filterOutIdxFrom (index n : Nat) : List α → List α
  | [] => []
  | x :: xs =>
    if n ≠ index then x :: filterOutIdxFrom index (n + 1) xs
    else filterOutIdxFrom index (n + 1) xs

/-- Keyed read on a JS object modelled as an association list
(`obj[k]`, yielding none for an absent key / undefined). -/
def getKey (m : List (String × α)) (k : String) : Option α :=
  match m.find? (fun p => p.1 == k) with
  | some p => some p.2
  | none => none

/-- Spread-update on a JS object (`\x7b ...prev, [k]: v \x7d`): an existing key
keeps its position and gets the new value, a new key is appended. -/
def setKey (m : List (String × α)) (k : String) (v : α) : List (String × α) :=
  if m.any (fun p => p.1 == k) then
    m.map (fun p => if p.1 == k then (k, v) else p)
  else m ++ [(k, v)]

/-! ### Marketplace page data model (page.tsx lines 15-55) -/

/-- interface ProductOption (page.tsx lines 15-21); `quantity` is the
available quantity ceiling of the option. -/
structure ProductOption where
  id : String
  code : String
  name : String
  price : Int
  quantity : Int
deriving DecidableEq, Repr

/-- interface Product (page.tsx lines 23-29). -/
structure Product where
  id : String
  code : String
  name : String
  img : String
  options : List ProductOption
deriving DecidableEq, Repr

/-- interface CartItem (page.tsx lines 46-55). -/
structure CartItem where
  productId : String
  productName : String
  productCode : String
  optionId : String
  optionName : String
  price : Int
  quantity : Int
  maxQuantity : Int
deriving DecidableEq, Repr

/-- The page-level React state touched by the cart/selection handlers:
products, cart, selectedOptions and quantities (page.tsx lines 58-69). -/
structure MarketplaceState where
  products : List Product
  cart : List CartItem
  selectedOptions : List (String × String)
  quantities : List (String × Int)
deriving DecidableEq, Repr

/-! ### Cart store and selection operations (page.tsx lines 209-280) -/

/-- The cart line key used by addToCart's findIndex
(item.productId === productId && item.optionId === selectedOptionId). -/
def keyMatches (productId optionId : String) (item : CartItem) : Bool :=
  item.productId == productId && item.optionId == optionId

/-- The new CartItem built by addToCart for a not-yet-present key
(page.tsx lines 250-259). -/
def mkCartItem (product : Product) (opt : ProductOption)
    (productId optionId : String) (quantity : Int) : CartItem :=
  { productId := productId
    productName := product.name
    productCode := product.code
    optionId := optionId
    optionName := opt.name
    price := opt.price
    quantity := quantity
    maxQuantity := opt.quantity }

/-- The cart-update core of addToCart (page.tsx lines 239-261): if a line
for (productId, optionId) exists its quantity is incremented, otherwise a
new line is appended. -/
def addOrMerge (cart : List CartItem) (product : Product) (opt : ProductOption)
    (productId optionId : String) (quantity : Int) : List CartItem :=
  match jsFindIndex (keyMatches productId optionId) cart with
  | some i => modifyIdx cart i (fun item => { item with quantity := item.quantity + quantity })
  | none => cart ++ [mkCartItem product opt productId optionId quantity]

/-- The option-resolution prefix shared by handleQuantityChange and
addToCart (page.tsx lines 215-217 and 225-227): find the product, read its
selected option id, and find that option. -/
def findSelectedOption (s : MarketplaceState) (productId : String) : Option ProductOption :=
  match s.products.find? (fun p => p.id == productId), getKey s.selectedOptions productId with
  | some product, some selectedOptionId =>
      product.options.find? (fun opt => opt.id == selectedOptionId)
  | _, _ => none

/-- handleOptionSelect (page.tsx lines 209-212): record the chosen option
and reset the chosen quantity to 1. -/
def handleOptionSelect (s : MarketplaceState) (productId optionId : String) :
    MarketplaceState :=
  { s with
    selectedOptions := setKey s.selectedOptions productId optionId
    quantities := setKey s.quantities productId 1 }

/-- handleQuantityChange (page.tsx lines 214-222): store the quantity only
when an option is selected and 1 <= quantity <= selectedOption.quantity;
otherwise the state is left untouched. -/
def handleQuantityChange (s : MarketplaceState) (productId : String)
    (quantity : Int) : MarketplaceState :=
  match findSelectedOption s productId with
  | some selectedOption =>
      if quantity ≤ selectedOption.quantity ∧ 1 ≤ quantity then
        { s with quantities := setKey s.quantities productId quantity }
      else s
  | none => s

/-- The quantity addToCart uses (page.tsx line 228,
`quantities[productId] || 1`): a missing entry, and the falsy value 0, both
yield 1. -/
def jsQuantityOr1 : Option Int → Int
  | some q => if q == 0 then 1 else q
  | none => 1

/-- addToCart (page.tsx lines 224-271).  Returns the next state together
with an error flag: true means the destructive "Please select a product
option" toast was shown and nothing changed; false means the add succeeded,
the cart was merged/appended and the product's selection was reset. -/
def addToCart (s : MarketplaceState) (productId : String) :
    MarketplaceState × Bool :=
  let product := s.products.find? (fun p => p.id == productId)
  let selectedOptionId := getKey s.selectedOptions productId
  let selectedOption :=
    match product, selectedOptionId with
    | some p, some oid => p.options.find? (fun opt => opt.id == oid)
    | _, _ => none
  let quantity := jsQuantityOr1 (getKey s.quantities productId)
  match product, selectedOptionId, selectedOption with
  | some prod, some oid, some opt =>
      ({ s with
          cart := addOrMerge s.cart prod opt productId oid quantity
          selectedOptions := setKey s.selectedOptions productId ""
          quantities := setKey s.quantities productId 1 }, false)
  | _, _, _ => (s, true)

/-- removeFromCart (page.tsx lines 273-276):
cart.filter of every entry whose index differs from the given one. -/
def removeFromCart (cart : List CartItem) (index : Nat) : List CartItem :=
  filterOutIdxFrom index 0 cart

/-- getTotalAmount (page.tsx lines 278-280): reduce over the cart summing
price * quantity, starting from 0. -/
def getTotalAmount (cart : List CartItem) : Int :=
  cart.foldl (fun total item => total + item.price * item.quantity) 0

/-! ### Measures used to state the cart invariants -/

/-- Number of cart lines for a given (productId, optionId) pair. -/
def countKey (cart : List CartItem) (productId optionId : String) : Nat :=
  (cart.filter (keyMatches productId optionId)).length

/-- Total quantity held by the cart lines for a given pair. -/
def keyQuantity (cart : List CartItem) (productId optionId : String) : Int :=
  ((cart.filter (keyMatches productId optionId)).map (fun item => item.quantity)).sum

/-! ### WebSocket provider data model (websocket-provider.tsx lines 11-33) -/

/-- Option payload inside a product_created event
(websocket-provider.tsx lines 22-27). -/
structure WSProductOption where
  id : String
  name : String
  price : Int
  quantity : Int
deriving DecidableEq, Repr

/-- interface ProductCreatedData (websocket-provider.tsx lines 17-28). -/
structure ProductCreatedData where
  id : String
  code : String
  name : String
  img : String
  options : List WSProductOption
deriving DecidableEq, Repr

/-- interface OrderUpdatedData (websocket-provider.tsx lines 29-33). -/
structure OrderUpdatedData where
  id : String
  order_number : String
  status : String
deriving DecidableEq, Repr

/-- The `data` field of an inbound message.  TypeScript types it `any` and
the handler casts it unchecked, so the state stores whatever payload came
off the wire; the two shapes the server sends are product and order
payloads. -/
inductive WSData where
  | product (d : ProductCreatedData)
  | order (d : OrderUpdatedData)
deriving DecidableEq, Repr

/-- interface WebSocketMessage (websocket-provider.tsx lines 11-15). -/
structure WebSocketMessage where
  event : String
  data : Option WSData
  message : Option String
deriving DecidableEq, Repr

/-- An inbound frame as delivered by the transport: its data string either
is valid JSON of the wire shape, or it is not. -/
inductive Frame where
  | valid (msg : WebSocketMessage)
  | malformed (raw : String)
deriving DecidableEq, Repr

/-- Embeds the JSON.parse builtin applied to a frame's data: a valid frame
yields the decoded message, a malformed frame throws a SyntaxError
(modelled as Except.error). -/
def parseFrame : Frame → Except String WebSocketMessage
  | .valid msg => .ok msg
  | .malformed raw => .error ("SyntaxError: unexpected token in " ++ raw)

/-- The value the provider passes to WebSocketContext.Provider
(websocket-provider.tsx line 260):
`lastMessage ? JSON.parse(lastMessage.data) : null`, evaluated during
render with no try/catch, so a parse failure propagates. -/
def contextLastMessage (lastMessage : Option Frame) :
    Except String (Option WebSocketMessage) :=
  match lastMessage with
  | some frame => (parseFrame frame).map some
  | none => .ok none

/-- The provider's notification state (websocket-provider.tsx lines
158-163) plus the set of pending setTimeout dismiss callbacks, recorded by
their absolute fire times.  The code keeps no timer handle and never calls
clearTimeout, so every scheduled callback stays pending until it fires. -/
structure ProviderState where
  userRole : Option String
  showNotification : Bool
  newProduct : Option WSData
  showOrderNotification : Bool
  updatedOrder : Option WSData
  productDismissTimers : List Int
  orderDismissTimers : List Int
deriving DecidableEq, Repr

/-- The auto-dismiss delay passed to setTimeout
(websocket-provider.tsx lines 220 and 229). -/
def notificationDelay : Int := 100000

/-- The message-handling effect (websocket-provider.tsx lines 207-236),
run when lastMessage changes, at absolute time `now`.  JSON.parse is inside
try/catch: a malformed frame is logged and dropped with no state change.
A product_created (resp. order_updated) message with a data field stores
the payload, shows the notification, and schedules a fresh dismiss timer
at now + notificationDelay without cancelling any earlier timer. -/
def handleMessage (s : ProviderState) (lastMessage : Option Frame) (now : Int) :
    ProviderState :=
  match lastMessage with
  | none => s
  | some frame =>
    if s.userRole == some "buyer" then
      match parseFrame frame with
      | .error _ => s
      | .ok msg =>
        let s1 :=
          if msg.event == "product_created" && msg.data.isSome then
            { s with
              newProduct := msg.data
              showNotification := true
              productDismissTimers := s.productDismissTimers ++ [now + notificationDelay] }
          else s
        if msg.event == "order_updated" && msg.data.isSome then
          { s1 with
            updatedOrder := msg.data
            showOrderNotification := true
            orderDismissTimers := s1.orderDismissTimers ++ [now + notificationDelay] }
        else s1
    else s

/-- A pending product-dismiss callback firing at its scheduled time `t`
(the body of the setTimeout at websocket-provider.tsx lines 218-220):
it runs setShowNotification(false) and is removed from the pending set.
Firing a time that is not pending does nothing. -/
def fireProductTimer (s : ProviderState) (t : Int) : ProviderState :=
  if s.productDismissTimers.contains t then
    { s with
      showNotification := false
      productDismissTimers := s.productDismissTimers.erase t }
  else s

/-! ### Push channel connection gating (websocket-provider.tsx lines 178-204)

The transport itself is the react-use-websocket library, an external
collaborator.  Its readyState values and its documented behaviour for the
`connect` parameter — when connect is false no socket is instantiated and
no transition happens — are modelled here; the connect expression
`userRole === "buyer"` (line 203) and the one-time role read at mount
(lines 166-176) are the repository's code. -/

/-- ReadyState of react-use-websocket; UNINSTANTIATED is the state of a
channel that was never connected (the spec's Disconnected). -/
inductive ReadyState where
  | UNINSTANTIATED
  | CONNECTING
  | OPEN
  | CLOSING
  | CLOSED
deriving DecidableEq, Repr

/-- Transport-level events driving the channel state machine. -/
inductive ChannelEvent where
  | attempt
  | opened
  | closed
deriving DecidableEq, Repr

/-- The connect flag handed to useWebSocket
(websocket-provider.tsx line 203): `userRole === "buyer"`. -/
def shouldConnect (userRole : Option String) : Bool :=
  userRole == some "buyer"

/-- One step of the push channel for a provider whose mounted role is
`role`: while the connect flag is false the library instantiates no socket
and the state never moves; while it is true the usual WebSocket lifecycle
(attempt, open, close/error with auto-reconnect attempts) applies. -/
def channelStep (role : Option String) (s : ReadyState) (e : ChannelEvent) :
    ReadyState :=
  if shouldConnect role then
    match s, e with
    | .UNINSTANTIATED, .attempt => .CONNECTING
    | .CLOSED, .attempt => .CONNECTING
    | .CONNECTING, .opened => .OPEN
    | .CONNECTING, .closed => .CLOSED
    | .OPEN, .closed => .CLOSED
    | st, _ => st
  else s

/-! ### Helper lemmas -/

theorem addOrMerge_nil (product : Product) (opt : ProductOption)
    (pid oid : String) (q : Int) :
    addOrMerge [] product opt pid oid q = [mkCartItem product opt pid oid q] := rfl

theorem addOrMerge_cons (x : CartItem) (xs : List CartItem) (product : Product)
    (opt : ProductOption) (pid oid : String) (q : Int) :
    addOrMerge (x :: xs) product opt pid oid q =
      if keyMatches pid oid x then { x with quantity := x.quantity + q } :: xs
      else x :: addOrMerge xs product opt pid oid q := by
  by_cases h : keyMatches pid oid x
  · simp [addOrMerge, jsFindIndex, h, modifyIdx]
  · cases hfi : jsFindIndex (keyMatches pid oid) xs with
    | none => simp [addOrMerge, jsFindIndex, h, hfi]
    | some i => simp [addOrMerge, jsFindIndex, h, hfi, modifyIdx]

theorem countKey_nil (pid oid : String) : countKey [] pid oid = 0 := rfl

theorem countKey_cons (x : CartItem) (xs : List CartItem) (pid oid : String) :
    countKey (x :: xs) pid oid =
      (if keyMatches pid oid x then 1 else 0) + countKey xs pid oid := by
  by_cases h : keyMatches pid oid x
  · simp [countKey, List.filter_cons, h]; omega
  · simp [countKey, List.filter_cons, h]

theorem keyQuantity_cons (x : CartItem) (xs : List CartItem) (pid oid : String) :
    keyQuantity (x :: xs) pid oid =
      (if keyMatches pid oid x then x.quantity else 0) + keyQuantity xs pid oid := by
  by_cases h : keyMatches pid oid x <;> simp [keyQuantity, List.filter_cons, h]

theorem keyMatches_set_quantity (pid oid : String) (x : CartItem) (q : Int) :
    keyMatches pid oid { x with quantity := q } = keyMatches pid oid x := rfl

/-- If no line holds the key, addOrMerge appends the fresh line at the end. -/
theorem addOrMerge_of_countKey_zero (cart : List CartItem) (product : Product)
    (opt : ProductOption) (pid oid : String) (q : Int)
    (h : countKey cart pid oid = 0) :
    addOrMerge cart product opt pid oid q =
      cart ++ [mkCartItem product opt pid oid q] := by
  induction cart with
  | nil => rfl
  | cons x xs ih =>
    rw [countKey_cons] at h
    by_cases hx : keyMatches pid oid x
    · simp [hx] at h
    · rw [addOrMerge_cons]
      simp only [hx, if_false]
      rw [ih (by omega)]
      simp

theorem countKey_append (a b : List CartItem) (pid oid : String) :
    countKey (a ++ b) pid oid = countKey a pid oid + countKey b pid oid := by
  simp [countKey, List.filter_append]

theorem keyQuantity_append (a b : List CartItem) (pid oid : String) :
    keyQuantity (a ++ b) pid oid = keyQuantity a pid oid + keyQuantity b pid oid := by
  simp [keyQuantity, List.filter_append]

theorem countKey_mkCartItem (product : Product) (opt : ProductOption)
    (pid oid : String) (q : Int) :
    countKey [mkCartItem product opt pid oid q] pid oid = 1 := by
  simp [countKey, mkCartItem, List.filter_cons, keyMatches]

theorem keyQuantity_mkCartItem (product : Product) (opt : ProductOption)
    (pid oid : String) (q : Int) :
    keyQuantity [mkCartItem product opt pid oid q] pid oid = q := by
  simp [keyQuantity, mkCartItem, List.filter_cons, keyMatches]

/-- Merging into a cart that holds the key exactly once keeps exactly one
line for the key, adds the quantity to it, and appends nothing. -/
theorem addOrMerge_of_countKey_one (cart : List CartItem) (product : Product)
    (opt : ProductOption) (pid oid : String) (q : Int)
    (h : countKey cart pid oid = 1) :
    countKey (addOrMerge cart product opt pid oid q) pid oid = 1 ∧
    keyQuantity (addOrMerge cart product opt pid oid q) pid oid =
      keyQuantity cart pid oid + q ∧
    (addOrMerge cart product opt pid oid q).length = cart.length := by
  induction cart with
  | nil => simp [countKey_nil] at h
  | cons x xs ih =>
    rw [countKey_cons] at h
    by_cases hx : keyMatches pid oid x
    · have hxs : countKey xs pid oid = 0 := by simp [hx] at h; omega
      rw [addOrMerge_cons]
      simp only [hx, if_true]
      refine ⟨?_, ?_, by simp⟩
      · rw [countKey_cons, keyMatches_set_quantity]
        simp [hx, hxs]
      · rw [keyQuantity_cons, keyQuantity_cons, keyMatches_set_quantity]
        simp only [hx, if_true]
        omega
    · have hxs : countKey xs pid oid = 1 := by simp [hx] at h; omega
      obtain ⟨ih1, ih2, ih3⟩ := ih hxs
      rw [addOrMerge_cons, if_neg hx]
      refine ⟨?_, ?_, by simp [ih3]⟩
      · rw [countKey_cons]
        simp [hx, ih1]
      · rw [keyQuantity_cons, keyQuantity_cons]
        simp only [hx, if_false]
        omega

/-- Folding a run of merges over a cart holding the key once adds the sum
of the merged quantities to that single line. -/
theorem addOrMerge_foldl_of_countKey_one (product : Product)
    (opt : ProductOption) (pid oid : String) (qs : List Int) :
    ∀ cart : List CartItem, countKey cart pid oid = 1 →
      countKey (qs.foldl (fun c q => addOrMerge c product opt pid oid q) cart) pid oid = 1 ∧
      keyQuantity (qs.foldl (fun c q => addOrMerge c product opt pid oid q) cart) pid oid =
        keyQuantity cart pid oid + qs.sum := by
  induction qs with
  | nil => intro cart h; exact ⟨by simpa using h, by simp⟩
  | cons q qs ih =>
    intro cart h
    obtain ⟨h1, h2, _⟩ := addOrMerge_of_countKey_one cart product opt pid oid q h
    obtain ⟨g1, g2⟩ := ih (addOrMerge cart product opt pid oid q) h1
    refine ⟨by simpa using g1, ?_⟩
    simp only [List.foldl_cons, List.sum_cons] at *
    omega

theorem getKey_map_update (m : List (String × α)) (k : String) (v : α)
    (h : m.any (fun p => p.1 == k) = true) :
    getKey (m.map (fun p => if p.1 == k then (k, v) else p)) k = some v := by
  induction m with
  | nil => simp at h
  | cons a m ih =>
    by_cases ha : a.1 == k
    · simp [getKey, List.find?, ha]
    · simp only [List.any_cons, ha, Bool.false_or] at h
      simpa [getKey, List.find?, ha] using ih h

theorem getKey_append_new (m : List (String × α)) (k : String) (v : α)
    (h : m.any (fun p => p.1 == k) = false) :
    getKey (m ++ [(k, v)]) k = some v := by
  induction m with
  | nil => simp [getKey, List.find?]
  | cons a m ih =>
    simp only [List.any_cons, Bool.or_eq_false_iff] at h
    simpa [getKey, List.find?, h.1] using ih h.2

/-- Reading back the key just written by a spread-update. -/
theorem getKey_setKey_self (m : List (String × α)) (k : String) (v : α) :
    getKey (setKey m k v) k = some v := by
  cases h : m.any (fun p => p.1 == k) with
  | true =>
    rw [setKey, if_pos h]
    exact getKey_map_update m k v h
  | false =>
    rw [setKey, if_neg (by simp [h])]
    exact getKey_append_new m k v h

theorem filterOutIdxFrom_of_lt (index : Nat) (xs : List α) :
    ∀ n : Nat, index < n → filterOutIdxFrom index n xs = xs := by
  induction xs with
  | nil => intro n _; rfl
  | cons x xs ih =>
    intro n hn
    rw [filterOutIdxFrom, if_pos (by omega)]
    rw [ih (n + 1) (by omega)]

theorem filterOutIdxFrom_eq (index : Nat) (xs : List α) :
    ∀ n : Nat, n ≤ index →
      filterOutIdxFrom index n xs =
        xs.take (index - n) ++ xs.drop (index - n + 1) := by
  induction xs with
  | nil => intro n _; simp [filterOutIdxFrom]
  | cons x xs ih =>
    intro n hn
    by_cases he : n = index
    · rw [filterOutIdxFrom, if_neg (by omega)]
      rw [filterOutIdxFrom_of_lt index xs (n + 1) (by omega)]
      have h0 : index - n = 0 := by omega
      rw [h0]
      simp
    · have hlt : n < index := by omega
      rw [filterOutIdxFrom, if_pos (by omega)]
      rw [ih (n + 1) (by omega)]
      have h1 : index - n = (index - (n + 1)) + 1 := by omega
      rw [h1]
      simp [List.take_succ_cons, List.drop_succ_cons]

/-- removeFromCart deletes exactly the indexed element. -/
theorem removeFromCart_eq_take_drop (cart : List CartItem) (index : Nat) :
    removeFromCart cart index = cart.take index ++ cart.drop (index + 1) := by
  simpa using filterOutIdxFrom_eq index cart 0 (Nat.zero_le index)

theorem foldl_add_sum (f : CartItem → Int) (l : List CartItem) :
    ∀ a : Int, l.foldl (fun t i => t + f i) a = a + (l.map f).sum := by
  induction l with
  | nil => intro a; simp
  | cons x xs ih =>
    intro a
    simp only [List.foldl_cons, List.map_cons, List.sum_cons, ih]
    ring

theorem keyQuantity_of_countKey_zero (cart : List CartItem) (pid oid : String)
    (h : countKey cart pid oid = 0) : keyQuantity cart pid oid = 0 := by
  unfold countKey at h
  unfold keyQuantity
  rw [List.length_eq_zero.mp h]
  rfl

/-- addToCart on a state whose stored selected-option id is the empty
string (the value addToCart writes back after a successful add) fails with
the error toast and changes nothing, provided no option of the product has
the empty id. -/
theorem addToCart_after_clear (t : MarketplaceState) (pid : String)
    (hsel : getKey t.selectedOptions pid = some "")
    (hno : ∀ p, t.products.find? (fun x => x.id == pid) = some p →
      p.options.find? (fun o => o.id == "") = none) :
    addToCart t pid = (t, true) := by
  cases hp : t.products.find? (fun x => x.id == pid) with
  | none => simp [addToCart, hp]
  | some p => simp [addToCart, hp, hsel, hno p hp]

/-- handleQuantityChange drops an out-of-range request, returning the state
unchanged. -/
theorem handleQuantityChange_drop (s : MarketplaceState) (pid : String)
    (q : Int) (opt : ProductOption) (hopt : findSelectedOption s pid = some opt)
    (hq : ¬(1 ≤ q ∧ q ≤ opt.quantity)) :
    handleQuantityChange s pid q = s := by
  simp only [handleQuantityChange, hopt]
  rw [if_neg (fun hc => hq ⟨hc.2, hc.1⟩)]

/-! ### Concrete fixtures used by witnesses and counterexamples -/

def optA : ProductOption :=
  { id := "optA", code := "OA", name := "Option A", price := 500, quantity := 5 }

def prodP1 : Product :=
  { id := "p1", code := "PC1", name := "Product 1", img := "", options := [optA] }

def lineA : CartItem := mkCartItem prodP1 optA "p1" "optA" 2

/-- A page state where product p1 has option optA selected with quantity 1. -/
def stateSel : MarketplaceState :=
  { products := [prodP1], cart := [],
    selectedOptions := [("p1", "optA")], quantities := [("p1", 1)] }

/-- A page state where product p1 has option optA selected but the stored
quantity is 0. -/
def stateQtyZero : MarketplaceState :=
  { products := [prodP1], cart := [],
    selectedOptions := [("p1", "optA")], quantities := [("p1", 0)] }

/-- A page state with no selection recorded for any product. -/
def stateNoSel : MarketplaceState :=
  { products := [prodP1], cart := [lineA],
    selectedOptions := [], quantities := [] }

/-- The state addToCart produces from stateSel. -/
def stateAfterAdd : MarketplaceState :=
  { products := [prodP1]
    cart := [mkCartItem prodP1 optA "p1" "optA" 1]
    selectedOptions := [("p1", "")]
    quantities := [("p1", 1)] }

/-! ### Claim theorems -/

/-- C6: getTotalAmount always equals the sum over all current cart lines of
unitPrice times quantity; it is a pure function of the cart (the embedding
takes the cart value and returns an integer, touching no other state). -/
theorem getTotalAmount_spec (cart : List CartItem) :
    getTotalAmount cart = (cart.map (fun item => item.price * item.quantity)).sum := by
  simpa using foldl_add_sum (fun item => item.price * item.quantity) cart 0

/-- C7: removeFromCart deletes exactly the line at the given index,
preserving the relative order of the remaining lines; an out-of-range
index (in particular any index on an empty cart) is a no-op. -/
theorem removeFromCart_spec (cart : List CartItem) (index : Nat) :
    removeFromCart cart index = cart.take index ++ cart.drop (index + 1) ∧
    (cart.length ≤ index → removeFromCart cart index = cart) ∧
    removeFromCart [] index = [] := by
  refine ⟨removeFromCart_eq_take_drop cart index, ?_, rfl⟩
  intro h
  rw [removeFromCart_eq_take_drop, List.take_of_length_le h,
    List.drop_eq_nil_of_le (by omega)]
  simp

theorem removeFromCart_spec_witness :
    ([lineA].length ≤ 3) ∧ removeFromCart [lineA] 3 = [lineA] :=
  ⟨by decide, (removeFromCart_spec [lineA] 3).2.1 (by decide)⟩

/-- C5: with an option selected, handleQuantityChange stores the requested
quantity exactly when 1 <= quantity <= selectedOption.quantity; any other
request leaves the whole state (hence the prior quantity) untouched and
surfaces no error, so a stored quantity can only ever change to a value
inside [1, maxQuantity]. -/
theorem handleQuantityChange_spec (s : MarketplaceState) (pid : String)
    (q : Int) (opt : ProductOption)
    (hopt : findSelectedOption s pid = some opt) :
    (1 ≤ q ∧ q ≤ opt.quantity →
      handleQuantityChange s pid q =
        { s with quantities := setKey s.quantities pid q } ∧
      getKey (handleQuantityChange s pid q).quantities pid = some q) ∧
    (¬(1 ≤ q ∧ q ≤ opt.quantity) → handleQuantityChange s pid q = s) ∧
    (∀ r : Int, getKey (handleQuantityChange s pid q).quantities pid = some r →
      (r = q ∧ 1 ≤ r ∧ r ≤ opt.quantity) ∨ getKey s.quantities pid = some r) := by
  simp only [handleQuantityChange, hopt]
  by_cases h : q ≤ opt.quantity ∧ 1 ≤ q
  · rw [if_pos h]
    have hget : getKey (setKey s.quantities pid q) pid = some q :=
      getKey_setKey_self s.quantities pid q
    refine ⟨fun _ => ⟨rfl, hget⟩, fun hc => absurd ⟨h.2, h.1⟩ hc, ?_⟩
    intro r hr
    rw [show ({ s with quantities := setKey s.quantities pid q} :
        MarketplaceState).quantities = setKey s.quantities pid q from rfl, hget] at hr
    obtain rfl := Option.some.inj hr
    exact Or.inl ⟨rfl, h.2, h.1⟩
  · rw [if_neg h]
    exact ⟨fun hc => absurd ⟨hc.2, hc.1⟩ h, fun _ => rfl, fun r hr => Or.inr hr⟩

theorem handleQuantityChange_spec_witness :
    findSelectedOption stateSel "p1" = some optA ∧
    handleQuantityChange stateSel "p1" 0 = stateSel :=
  ⟨by decide,
   (handleQuantityChange_spec stateSel "p1" 0 optA (by decide)).2.1 (by decide)⟩

/-- C10: addToCart for a product with no selected option, or an unknown
productId, surfaces the error toast and returns with the entire state (in
particular the cart) unchanged. -/
theorem addToCart_no_selection (s : MarketplaceState) (pid : String)
    (h : s.products.find? (fun p => p.id == pid) = none ∨
      getKey s.selectedOptions pid = none) :
    addToCart s pid = (s, true) := by
  cases hp : s.products.find? (fun p => p.id == pid) with
  | none => simp [addToCart, hp]
  | some prod =>
    cases hsel : getKey s.selectedOptions pid with
    | none => simp [addToCart, hp, hsel]
    | some oid =>
      rcases h with h | h
      · rw [hp] at h; cases h
      · rw [hsel] at h; cases h

theorem addToCart_no_selection_witness :
    (stateNoSel.products.find? (fun p => p.id == "p1") = none ∨
      getKey stateNoSel.selectedOptions "p1" = none) ∧
    addToCart stateNoSel "p1" = (stateNoSel, true) :=
  ⟨Or.inr (by decide), addToCart_no_selection stateNoSel "p1" (Or.inr (by decide))⟩

/-- C1: the cart-update core of addToCart keeps at most one line per
(productId, optionId) pair: an add for an absent pair appends a new line at
the end (preserving insertion order), an add for a present pair increments
that line in place (same length, still one line for the pair), and a
nonempty run of adds for the same pair starting from a cart without the
pair yields exactly one line whose quantity is the sum of all added
quantities. -/
theorem addOrMerge_unique_line (product : Product) (opt : ProductOption)
    (pid oid : String) (cart : List CartItem) (q : Int) (qs : List Int) :
    (countKey cart pid oid = 0 →
      addOrMerge cart product opt pid oid q =
        cart ++ [mkCartItem product opt pid oid q]) ∧
    (countKey cart pid oid = 1 →
      countKey (addOrMerge cart product opt pid oid q) pid oid = 1 ∧
      (addOrMerge cart product opt pid oid q).length = cart.length ∧
      keyQuantity (addOrMerge cart product opt pid oid q) pid oid =
        keyQuantity cart pid oid + q) ∧
    (countKey cart pid oid = 0 →
      countKey ((q :: qs).foldl (fun c r => addOrMerge c product opt pid oid r) cart)
        pid oid = 1 ∧
      keyQuantity ((q :: qs).foldl (fun c r => addOrMerge c product opt pid oid r) cart)
        pid oid = (q :: qs).sum) := by
  refine ⟨addOrMerge_of_countKey_zero cart product opt pid oid q, ?_, ?_⟩
  · intro h1
    obtain ⟨g1, g2, g3⟩ := addOrMerge_of_countKey_one cart product opt pid oid q h1
    exact ⟨g1, g3, g2⟩
  · intro h0
    have happ := addOrMerge_of_countKey_zero cart product opt pid oid q h0
    have hc1 : countKey (cart ++ [mkCartItem product opt pid oid q]) pid oid = 1 := by
      rw [countKey_append, h0, countKey_mkCartItem]
    have hq1 : keyQuantity (cart ++ [mkCartItem product opt pid oid q]) pid oid = q := by
      rw [keyQuantity_append, keyQuantity_of_countKey_zero cart pid oid h0,
        keyQuantity_mkCartItem]
      ring
    obtain ⟨g1, g2⟩ := addOrMerge_foldl_of_countKey_one product opt pid oid qs
      (cart ++ [mkCartItem product opt pid oid q]) hc1
    simp only [List.foldl_cons]
    rw [happ]
    refine ⟨g1, ?_⟩
    rw [g2, hq1, List.sum_cons]

theorem addOrMerge_unique_line_witness :
    countKey [] "p1" "optA" = 0 ∧
    countKey ([2, 3].foldl (fun c r => addOrMerge c prodP1 optA "p1" "optA" r) [])
      "p1" "optA" = 1 ∧
    keyQuantity ([2, 3].foldl (fun c r => addOrMerge c prodP1 optA "p1" "optA" r) [])
      "p1" "optA" = 5 := by
  refine ⟨rfl, ?_⟩
  obtain ⟨g1, g2⟩ := (addOrMerge_unique_line prodP1 optA "p1" "optA" [] 2 [3]).2.2 rfl
  exact ⟨g1, by rw [g2]; decide⟩

/-- C4 counterexample: with option optA (ceiling 5, price 500) selected for
p1 and a stored quantity of 0, addToCart does not fail: it succeeds, the
cart gains a line (the falsy 0 is replaced by 1), and the total changes
from 0 to 500 — the claimed ValidationError and unchanged total do not
happen. -/
theorem zero_quantity_add_not_rejected :
    (addToCart stateQtyZero "p1").2 = false ∧
    getTotalAmount (addToCart stateQtyZero "p1").1.cart = 500 ∧
    getTotalAmount stateQtyZero.cart = 0 := by decide

/-- C4 amended: addToCart performs no quantity validation at all — whenever
the product and its selected option resolve, the add succeeds,
using the stored quantity as-is (with a missing entry or the falsy 0
replaced by 1, and with no cap against the option ceiling); quantity
bounds are enforced only upstream by handleQuantityChange, which silently
drops any request outside [1, maxQuantity] without surfacing an error. -/
theorem addToCart_no_quantity_validation (s : MarketplaceState)
    (pid oid : String) (prod : Product) (opt : ProductOption)
    (hp : s.products.find? (fun p => p.id == pid) = some prod)
    (hsel : getKey s.selectedOptions pid = some oid)
    (hopt : prod.options.find? (fun o => o.id == oid) = some opt) :
    (addToCart s pid).2 = false ∧
    (addToCart s pid).1.cart =
      addOrMerge s.cart prod opt pid oid (jsQuantityOr1 (getKey s.quantities pid)) ∧
    (∀ q : Int, ¬(1 ≤ q ∧ q ≤ opt.quantity) → handleQuantityChange s pid q = s) ∧
    jsQuantityOr1 (some 0) = 1 := by
  have hfind : findSelectedOption s pid = some opt := by
    simp [findSelectedOption, hp, hsel, hopt]
  refine ⟨?_, ?_, ?_, rfl⟩
  · simp [addToCart, hp, hsel, hopt]
  · simp [addToCart, hp, hsel, hopt]
  · intro q hq
    exact handleQuantityChange_drop s pid q opt hfind hq

theorem addToCart_no_quantity_validation_witness :
    stateQtyZero.products.find? (fun p => p.id == "p1") = some prodP1 ∧
    getKey stateQtyZero.selectedOptions "p1" = some "optA" ∧
    prodP1.options.find? (fun o => o.id == "optA") = some optA ∧
    (addToCart stateQtyZero "p1").2 = false :=
  ⟨by decide, by decide, by decide,
   (addToCart_no_quantity_validation stateQtyZero "p1" "optA" prodP1 optA
     (by decide) (by decide) (by decide)).1⟩

/-- C9: handleOptionSelect records the chosen option and resets the chosen
quantity to 1; a successful addToCart clears the product's selection
(option id emptied, quantity reset to 1); and — provided the product has no
option whose id is the empty string — an immediately repeated addToCart
fails and changes nothing, so one selection cannot seed two insertions. -/
theorem selection_lifecycle (s : MarketplaceState) (pid oid : String)
    (s' : MarketplaceState) (hadd : addToCart s pid = (s', false)) :
    (getKey (handleOptionSelect s pid oid).selectedOptions pid = some oid ∧
     getKey (handleOptionSelect s pid oid).quantities pid = some 1) ∧
    (getKey s'.selectedOptions pid = some "" ∧
     getKey s'.quantities pid = some 1) ∧
    ((∀ p, s'.products.find? (fun x => x.id == pid) = some p →
        p.options.find? (fun o => o.id == "") = none) →
      addToCart s' pid = (s', true)) := by
  refine ⟨⟨getKey_setKey_self s.selectedOptions pid oid,
    getKey_setKey_self s.quantities pid 1⟩, ?_⟩
  cases hp : s.products.find? (fun p => p.id == pid) with
  | none => simp [addToCart, hp] at hadd
  | some prod =>
    cases hsel : getKey s.selectedOptions pid with
    | none => simp [addToCart, hp, hsel] at hadd
    | some oid0 =>
      cases hopt : prod.options.find? (fun opt => opt.id == oid0) with
      | none => simp [addToCart, hp, hsel, hopt] at hadd
      | some opt0 =>
        simp only [addToCart, hp, hsel, hopt, Prod.mk.injEq] at hadd
        obtain ⟨hs', -⟩ := hadd
        subst hs'
        have hclear : getKey
            ({ s with
                cart := addOrMerge s.cart prod opt0 pid oid0
                  (jsQuantityOr1 (getKey s.quantities pid))
                selectedOptions := setKey s.selectedOptions pid ""
                quantities := setKey s.quantities pid 1 } :
              MarketplaceState).selectedOptions pid = some "" :=
          getKey_setKey_self s.selectedOptions pid ""
        refine ⟨⟨hclear, getKey_setKey_self s.quantities pid 1⟩, ?_⟩
        intro hno
        exact addToCart_after_clear _ pid hclear hno

theorem selection_lifecycle_witness :
    addToCart stateSel "p1" = (stateAfterAdd, false) ∧
    (getKey stateAfterAdd.selectedOptions "p1" = some "" ∧
     getKey stateAfterAdd.quantities "p1" = some 1) ∧
    addToCart stateAfterAdd "p1" = (stateAfterAdd, true) := by
  have hrun : addToCart stateSel "p1" = (stateAfterAdd, false) := by decide
  have hno : ∀ p, stateAfterAdd.products.find? (fun x => x.id == "p1") = some p →
      p.options.find? (fun o => o.id == "") = none := by
    intro p hp
    have hfind : stateAfterAdd.products.find? (fun x => x.id == "p1") = some prodP1 := by
      decide
    rw [hfind] at hp
    obtain rfl := Option.some.inj hp
    decide
  exact ⟨hrun, (selection_lifecycle stateSel "p1" "optA" stateAfterAdd hrun).2.1,
    (selection_lifecycle stateSel "p1" "optA" stateAfterAdd hrun).2.2 hno⟩

/-! ### WebSocket fixtures -/

/-- A provider state for a mounted buyer with nothing notified yet. -/
def buyerIdle : ProviderState :=
  { userRole := some "buyer", showNotification := false, newProduct := none,
    showOrderNotification := false, updatedOrder := none,
    productDismissTimers := [], orderDismissTimers := [] }

/-- The spec scenario's malformed frame. -/
def badFrame : Frame := Frame.malformed "\x7bnot json"

def prodData1 : ProductCreatedData :=
  { id := "pr1", code := "PC1", name := "First", img := "", options := [] }

def prodData2 : ProductCreatedData :=
  { id := "pr2", code := "PC2", name := "Second", img := "", options := [] }

/-- A well-formed product_created frame carrying the given payload. -/
def productFrame (d : ProductCreatedData) : Frame :=
  Frame.valid
    { event := "product_created", data := some (WSData.product d), message := none }

/-- The provider state after a buyer receives product_created events with
payloads prodData1 (at time 0) and prodData2 (at time 1000). -/
def twoEventsState : ProviderState :=
  handleMessage (handleMessage buyerIdle (some (productFrame prodData1)) 0)
    (some (productFrame prodData2)) 1000

/-- A buyer receiving a product_created message with a data payload stores
that payload, shows the notification, and appends a fresh dismiss timer;
no earlier timer is removed (the code never calls clearTimeout). -/
theorem handleMessage_product_eq (s : ProviderState) (d : WSData) (t : Int)
    (hrole : s.userRole = some "buyer") :
    handleMessage s
        (some (Frame.valid { event := "product_created", data := some d, message := none })) t =
      { s with newProduct := some d, showNotification := true,
               productDismissTimers := s.productDismissTimers ++ [t + notificationDelay] } := by
  have hbuyer : (s.userRole == some "buyer") = true := by rw [hrole]; rfl
  simp only [handleMessage, parseFrame, hbuyer, if_true]
  have h1 : ("product_created" == "product_created" &&
      (some d : Option WSData).isSome) = true := rfl
  have h2 : ("product_created" == "order_updated" &&
      (some d : Option WSData).isSome) = false := by simp
  simp only [h1, h2, if_true, Bool.false_eq_true, if_false]

/-- C2: the effect handler drops a malformed frame with the provider state
unchanged (logged only, no notification appears), but the value the
provider exposes through the WebSocket context re-parses the same frame
outside any try/catch, so evaluating it throws — the code crashes exactly
where the claim says it must not. -/
theorem malformed_frame_crashes_render :
    handleMessage buyerIdle (some badFrame) 0 = buyerIdle ∧
    buyerIdle.showNotification = false ∧
    contextLastMessage (some badFrame) =
      Except.error "SyntaxError: unexpected token in \x7bnot json" :=
  ⟨rfl, rfl, rfl⟩

/-- C3 counterexample: after a buyer receives two product_created events (at
times 0 and 1000), one notification shows the second payload, but the first
event's dismiss timer is still pending (timers [100000, 101000]), and when
it fires at 100000 — earlier than the second event's dismiss time 101000 —
it hides the second notification: the first timer is not superseded. -/
theorem second_product_event_dismissed_early :
    twoEventsState.showNotification = true ∧
    twoEventsState.newProduct = some (WSData.product prodData2) ∧
    twoEventsState.productDismissTimers = [100000, 101000] ∧
    (fireProductTimer twoEventsState 100000).showNotification = false ∧
    (100000 : Int) < 1000 + notificationDelay := by decide

/-- C3 amended: after two consecutive product_created events, exactly one
product notification is visible and it shows the second event's payload,
and a fresh dismiss timer is scheduled for the second event; but the first
event's timer is not cancelled — it stays pending, and when it fires
(notificationDelay after the first event) it hides the notification even
though the second event's own timer has not yet fired. -/
theorem second_product_event_last_writer (s : ProviderState) (d1 d2 : WSData)
    (t1 t2 : Int) (hrole : s.userRole = some "buyer") :
    (handleMessage (handleMessage s
        (some (Frame.valid { event := "product_created", data := some d1, message := none })) t1)
        (some (Frame.valid { event := "product_created", data := some d2, message := none }))
        t2).showNotification = true ∧
    (handleMessage (handleMessage s
        (some (Frame.valid { event := "product_created", data := some d1, message := none })) t1)
        (some (Frame.valid { event := "product_created", data := some d2, message := none }))
        t2).newProduct = some d2 ∧
    (handleMessage (handleMessage s
        (some (Frame.valid { event := "product_created", data := some d1, message := none })) t1)
        (some (Frame.valid { event := "product_created", data := some d2, message := none }))
        t2).productDismissTimers =
      s.productDismissTimers ++ [t1 + notificationDelay, t2 + notificationDelay] ∧
    (fireProductTimer (handleMessage (handleMessage s
        (some (Frame.valid { event := "product_created", data := some d1, message := none })) t1)
        (some (Frame.valid { event := "product_created", data := some d2, message := none }))
        t2) (t1 + notificationDelay)).showNotification = false := by
  rw [handleMessage_product_eq s d1 t1 hrole]
  rw [handleMessage_product_eq
    { s with newProduct := some d1, showNotification := true,
             productDismissTimers := s.productDismissTimers ++ [t1 + notificationDelay] }
    d2 t2 hrole]
  refine ⟨rfl, rfl, by simp, ?_⟩
  rw [fireProductTimer, if_pos (by simp)]

theorem second_product_event_last_writer_witness :
    buyerIdle.userRole = some "buyer" ∧
    twoEventsState.newProduct = some (WSData.product prodData2) ∧
    (fireProductTimer twoEventsState (0 + notificationDelay)).showNotification = false :=
  ⟨rfl,
   (second_product_event_last_writer buyerIdle (WSData.product prodData1)
     (WSData.product prodData2) 0 1000 rfl).2.1,
   (second_product_event_last_writer buyerIdle (WSData.product prodData1)
     (WSData.product prodData2) 0 1000 rfl).2.2.2⟩

/-- C8: with a mounted role for which the connect flag is false (any role
other than buyer, e.g. supplier), the push channel never leaves the
never-instantiated state whatever transport events occur — so no
subscription or connection attempt is ever made; the connect flag is true
exactly for the buyer role. -/
theorem channel_stays_disconnected_unless_buyer (role : Option String)
    (events : List ChannelEvent) (h : shouldConnect role = false) :
    events.foldl (channelStep role) ReadyState.UNINSTANTIATED =
      ReadyState.UNINSTANTIATED ∧
    shouldConnect (some "supplier") = false ∧
    shouldConnect none = false ∧
    shouldConnect (some "buyer") = true := by
  refine ⟨?_, by decide, by decide, by decide⟩
  induction events with
  | nil => rfl
  | cons e es ih =>
    simp only [List.foldl_cons]
    rw [show channelStep role ReadyState.UNINSTANTIATED e = ReadyState.UNINSTANTIATED from
      by simp [channelStep, h]]
    exact ih

theorem channel_stays_disconnected_unless_buyer_witness :
    shouldConnect (some "supplier") = false ∧
    [ChannelEvent.attempt, ChannelEvent.opened, ChannelEvent.attempt].foldl
      (channelStep (some "supplier")) ReadyState.UNINSTANTIATED =
      ReadyState.UNINSTANTIATED :=
  ⟨by decide,
   (channel_stays_disconnected_unless_buyer (some "supplier")
     [ChannelEvent.attempt, ChannelEvent.opened, ChannelEvent.attempt] (by decide)).1⟩

end WaoUI
